import Mathlib

/-!
Verification of the tgbot-group repository against its specification.

This file contains a shallow embedding, in Lean 4, of the parts of the
repository that the checked claims are about:

* `src/validators.py` — profile-text validation, text sanitization and the
  spam heuristic;
* `src/db.py` — the SQLite-backed profile/report store, modelled as a pure
  state-passing store (`DB`) with the operations the handlers use;
* `src/handlers.py` — the moderation callback (`admin_review_cb`), the
  new-profile confirmation callback (`new_profile_confirm_cb`), the edit
  flow entry/confirm callbacks, the AFK flow steps and the free-text report
  parser (`try_auto_report_submit`);
* `src/main.py` — the handler registration order, as a first-match dispatch
  over plain text messages.

Modelling conventions:

* Python strings are Lean `String` / `List Char`; `str.strip()` is `pyStrip`,
  `str.lower()` is mapped `pyLower` (faithful for the ASCII and Cyrillic
  alphabets that occur in this code), `re.sub(r'\s+', ' ', ·)` is
  `collapseWs`.  `Char.isWhitespace` covers the ASCII whitespace that occurs
  in the repository's data.
* SQLite's default BINARY collation makes both the `UNIQUE` constraint on
  `profiles.username` and `WHERE username = ?` case-SENSITIVE; the model uses
  exact `String` equality accordingly.
* Fallible operations return `Except`/`Option`; `sqlite3.IntegrityError`
  raised by a violated UNIQUE constraint is the `.error` branch of
  `add_profile`.
* Wall-clock time (`datetime.utcnow`) is not modelled; timestamp fields take
  an opaque default that no claim depends on.
* Telegram I/O (sending messages) is modelled by returning reply tags; the
  best-effort admin fan-out is modelled by the list of chat ids the handler
  iterates over.
-/

/-! ## Text primitives shared by the validators and handlers -/

/-- Whitespace test used for Python's `str.strip()` and the regex class
`\s` (faithful for the ASCII whitespace appearing in this repository). -/
def isPyWs (c : Char) : Bool := c.isWhitespace

/-- Python `str.strip()`: drop leading and trailing whitespace. -/
def pyStrip (l : List Char) : List Char :=
  ((l.dropWhile isPyWs).reverse.dropWhile isPyWs).reverse

/-- Helper for `collapseWs`; the flag records whether the previously
emitted character came from a whitespace run. -/
def collapseWsAux : Bool → List Char → List Char
  | _, [] => []
  | prevWs, c :: rest =>
    if isPyWs c then
      if prevWs then collapseWsAux true rest
      else ' ' :: collapseWsAux true rest
    else c :: collapseWsAux false rest

/-- `re.sub(r'\s+', ' ', text)` from `validators.sanitize_text`: every
maximal run of whitespace becomes a single space. -/
def collapseWs (l : List Char) : List Char := collapseWsAux false l

/-- Contiguous-substring test (`pattern in text` / `re.search` of a literal
pattern). -/
def listContains (l pat : List Char) : Bool :=
  match l with
  | [] => pat.isEmpty
  | _ :: rest => pat.isPrefixOf l || listContains rest pat

/-- Python `str.lower()` restricted to the alphabets this repository uses:
ASCII letters and the Cyrillic block (А–Я plus Ё). -/
def pyLower (c : Char) : Char :=
  if 65 ≤ c.toNat ∧ c.toNat ≤ 90 then Char.ofNat (c.toNat + 32)
  else if 0x410 ≤ c.toNat ∧ c.toNat ≤ 0x42F then Char.ofNat (c.toNat + 0x20)
  else if c.toNat = 0x401 then Char.ofNat 0x451
  else c

/-- Word character for the regex class `\w` (Python `re` is Unicode-aware;
this models ASCII alphanumerics, underscore and the Cyrillic block, which is
what the bot's messages consist of). -/
def isWordChar (c : Char) : Bool :=
  c.isAlphanum || c == '_' || (0x400 ≤ c.toNat && c.toNat ≤ 0x4FF)

/-- Digit-sequence check for Python `int()`: nonempty digits in which a
single underscore may stand strictly between two digits (helper: the tail
after the first digit). -/
def okDigitsAux : List Char → Bool
  | [] => true
  | '_' :: c :: rest => c.isDigit && okDigitsAux rest
  | c :: rest => c.isDigit && okDigitsAux rest

/-- Nonempty digit sequence with Python's underscore rule. -/
def okDigits : List Char → Bool
  | [] => false
  | c :: rest => c.isDigit && okDigitsAux rest

/-- Numeric value of a digit sequence (underscores already filtered out). -/
def digitsVal (l : List Char) : Nat :=
  l.foldl (fun a c => 10 * a + (c.toNat - 48)) 0

/-- Python `int(s)` on a decimal string: strips whitespace, allows one
optional sign, then digits with the underscore rule; `none` models the
`ValueError` raised on any other input. -/
def pyParseInt (s : String) : Option Int :=
  let t := pyStrip s.toList
  match t with
  | '+' :: ds => if okDigits ds then some (digitsVal (ds.filter (fun c => c ≠ '_'))) else none
  | '-' :: ds => if okDigits ds then some (-(digitsVal (ds.filter (fun c => c ≠ '_')) : Int)) else none
  | ds => if okDigits ds then some (digitsVal (ds.filter (fun c => c ≠ '_'))) else none

/-! ## `src/validators.py` -/

/-- `config.MIN_PROFILE_LENGTH` (src/config.py). -/
def MIN_PROFILE_LENGTH : Nat := 10

/-- `config.MAX_PROFILE_LENGTH` (src/config.py). -/
def MAX_PROFILE_LENGTH : Nat := 5000

/-- `validators.FORBIDDEN_PATTERNS`.  Each regex in the source is a literal
string (the only escape, in the pattern for adult content, denotes a literal
plus sign), so `re.search` of a pattern is substring containment. -/
def FORBIDDEN_PATTERNS : List String :=
  ["spam", "phishing", "scam", "bot", "hack", "xxx", "porn", "18+", "nudes"]

/-- `validators.validate_profile_text`.  Returns `(is_valid, error_message)`;
`if not text` is the empty-string test. -/
def validate_profile_text (text : String) : Bool × Option String :=
  if text = "" then (false, some "Текст не может быть пустым")
  else
    let t := pyStrip text.toList
    if t.length < MIN_PROFILE_LENGTH then (false, some "Минимум 10 символов")
    else if MAX_PROFILE_LENGTH < t.length then (false, some "Максимум 5000 символов")
    else if FORBIDDEN_PATTERNS.any (fun pat => listContains (t.map pyLower) pat.toList) then
      (false, some "Найден запрещенный контент")
    else (true, none)

/-- `validators.sanitize_text` on the `remove_urls=False` path, the only one
`sanitize_profile_data` uses: strip, then collapse whitespace runs. -/
def sanitize_text (text : String) : String :=
  if text = "" then ""
  else (collapseWs (pyStrip text.toList)).asString

/-- A Python dict value as it occurs in a profile dictionary: `None`, a
string, or a non-string (integers in this schema). -/
inductive PValue
  | null
  | str (s : String)
  | int (n : Int)
deriving Repr, DecidableEq

/-- `validators.sanitize_profile_data`: `None` and non-strings pass through,
the `note` string is only stripped, every other string is `sanitize_text`d. -/
def sanitize_profile_data (data : List (String × PValue)) : List (String × PValue) :=
  data.map (fun kv =>
    match kv with
    | (key, PValue.null) => (key, PValue.null)
    | (key, PValue.str s) =>
      if key = "note" then (key, PValue.str (pyStrip s.toList).asString)
      else (key, PValue.str (sanitize_text s))
    | (key, PValue.int n) => (key, PValue.int n))

/-- `validators.is_spam`.  The caps/special ratio is computed over `ℚ`
instead of IEEE floats; the claims checked here only exercise the
short-input guard, which the ratio never reaches. -/
def is_spam (text : String) (threshold : ℚ) : Bool :=
  if text = "" ∨ text.length < 5 then false
  else
    let caps := (text.toList.filter Char.isUpper).length
    let special := (text.toList.filter (fun c => !c.isAlphanum && c ≠ ' ')).length
    decide (((caps : ℚ) + (special : ℚ)) / (text.length : ℚ) > threshold)

/-! ## `src/db.py`: the profile/report store -/

/-- Placeholder for `datetime.utcnow().isoformat()`; wall-clock time is
outside the model and no claim depends on the value. -/
def iso_now : String := "1970-01-01T00:00:00"

/-- One row of the `profiles` table created by `db.init_db` (note: the
schema has NO `reviewed_by_id` column). -/
structure Profile where
  id : Nat
  username : String
  age : Option Int := none
  name : Option String := none
  country : Option String := none
  city : Option String := none
  timezone : Option String := none
  tz_offset : Option Int := none
  languages : Option String := none
  note : Option String := none
  added_by : Option String := none
  added_by_id : Option Nat := none
  status : Option String := none
  added_at : Option String := none
deriving Repr, DecidableEq

/-- The profile dictionary a caller passes to `db.add_profile`
(`username` is accessed with `profile['username']`, so it is required;
every other field is read with `.get`). -/
structure NewProfile where
  username : String
  age : Option Int := none
  name : Option String := none
  country : Option String := none
  city : Option String := none
  timezone : Option String := none
  tz_offset : Option Int := none
  languages : Option String := none
  note : Option String := none
  added_by : Option String := none
  added_by_id : Option Nat := none
  status : Option String := none
  added_at : Option String := none
deriving Repr, DecidableEq

/-- One row of the `reports` table. -/
structure Report where
  id : Nat
  reporter_id : Option Nat := none
  reporter_username : Option String := none
  category : Option String := none
  target_identifier : Option String := none
  reason : Option String := none
  attachments : Option String := none
  created_at : Option String := none
deriving Repr, DecidableEq

/-- The report dictionary passed to `db.add_report`. -/
structure NewReport where
  reporter_id : Option Nat := none
  reporter_username : Option String := none
  category : Option String := none
  target_identifier : Option String := none
  reason : Option String := none
  attachments : Option String := none
  created_at : Option String := none
deriving Repr, DecidableEq

/-- The SQLite database state: the two tables plus their AUTOINCREMENT
counters. -/
structure DB where
  profiles : List Profile
  nextProfileId : Nat
  reports : List Report
  nextReportId : Nat
deriving Repr, DecidableEq

/-- `db.get_profile_by_username`: `SELECT * FROM profiles WHERE username = ?`
under the default BINARY collation, i.e. exact equality; `fetchone` is the
first matching row. -/
def get_profile_by_username (username : String) (db : DB) : Option Profile :=
  db.profiles.find? (fun p => p.username == username)

/-- `db.get_profile_by_id`. -/
def get_profile_by_id (pid : Nat) (db : DB) : Option Profile :=
  db.profiles.find? (fun p => p.id == pid)

/-- The status defaulting in `db.add_profile`:
`profile.get('status') or ('pending' if profile.get('added_by') != 'seed' else 'approved')`
(Python `or` also replaces an empty string). -/
def effectiveStatus (p : NewProfile) : String :=
  let dflt := if p.added_by ≠ some "seed" then "pending" else "approved"
  match p.status with
  | some s => if s ≠ "" then s else dflt
  | none => dflt

/-- The row `db.add_profile` inserts for a given fresh id. -/
def mkProfileRow (p : NewProfile) (pid : Nat) : Profile :=
  { id := pid, username := p.username, age := p.age, name := p.name,
    country := p.country, city := p.city, timezone := p.timezone,
    tz_offset := p.tz_offset, languages := p.languages, note := p.note,
    added_by := some (p.added_by.getD "user"), added_by_id := p.added_by_id,
    status := some (effectiveStatus p), added_at := some (p.added_at.getD iso_now) }

/-- `db.add_profile`: INSERT honouring `username TEXT UNIQUE NOT NULL`.
SQLite's UNIQUE under BINARY collation compares usernames exactly
(case-sensitively); a violation raises `sqlite3.IntegrityError`, the
`.error` branch here.  On success returns `cur.lastrowid` and the new
state. -/
def add_profile (p : NewProfile) (db : DB) : Except String (Nat × DB) :=
  if db.profiles.any (fun q => q.username == p.username) then
    Except.error "UNIQUE constraint failed: profiles.username"
  else
    Except.ok (db.nextProfileId,
      { db with profiles := db.profiles ++ [mkProfileRow p db.nextProfileId],
                nextProfileId := db.nextProfileId + 1 })

/-- `db.delete_profile`: `DELETE FROM profiles WHERE username = ?`; returns
whether any row was affected, and the new state. -/
def delete_profile (username : String) (db : DB) : Bool × DB :=
  (db.profiles.any (fun p => p.username == username),
   { db with profiles := db.profiles.filter (fun p => !(p.username == username)) })

/-- The `changes` dictionary handed to `db.update_profile`: `some v` sets a
column to `v`, `none` leaves it alone. -/
structure ProfileChanges where
  age : Option (Option Int) := none
  name : Option (Option String) := none
  country : Option (Option String) := none
  city : Option (Option String) := none
  timezone : Option (Option String) := none
  tz_offset : Option (Option Int) := none
  languages : Option (Option String) := none
  note : Option (Option String) := none
  status : Option (Option String) := none
deriving Repr, DecidableEq

/-- Whether the `changes` dict is empty (`if not keys: return False`). -/
def ProfileChanges.isEmptyChanges (c : ProfileChanges) : Bool :=
  c.age.isNone && c.name.isNone && c.country.isNone && c.city.isNone &&
  c.timezone.isNone && c.tz_offset.isNone && c.languages.isNone &&
  c.note.isNone && c.status.isNone

/-- Apply an UPDATE's SET list to one row. -/
def applyChanges (c : ProfileChanges) (p : Profile) : Profile :=
  { p with age := c.age.getD p.age, name := c.name.getD p.name,
           country := c.country.getD p.country, city := c.city.getD p.city,
           timezone := c.timezone.getD p.timezone,
           tz_offset := c.tz_offset.getD p.tz_offset,
           languages := c.languages.getD p.languages,
           note := c.note.getD p.note, status := c.status.getD p.status }

/-- `db.update_profile`: `UPDATE profiles SET ... WHERE username = ?`;
returns whether any row was affected, and the new state. -/
def update_profile (username : String) (c : ProfileChanges) (db : DB) : Bool × DB :=
  if c.isEmptyChanges then (false, db)
  else
    let updated := db.profiles.map (fun p => if p.username == username then applyChanges c p else p)
    (db.profiles.any (fun p => p.username == username), { db with profiles := updated })

/-- `db.add_report`: INSERT into `reports`, returning `cur.lastrowid`. -/
def add_report (r : NewReport) (db : DB) : Nat × DB :=
  (db.nextReportId,
   { db with
       reports := db.reports ++
         [{ id := db.nextReportId, reporter_id := r.reporter_id,
            reporter_username := r.reporter_username, category := r.category,
            target_identifier := r.target_identifier, reason := r.reason,
            attachments := r.attachments,
            created_at := some (r.created_at.getD iso_now) }],
       nextReportId := db.nextReportId + 1 })

/-! ## `src/handlers.py`: moderation review callback -/

/-- `profile.get('reviewed_by_id')` inside `handlers.admin_review_cb`.
The `profiles` table created by `db.init_db` has no `reviewed_by_id`
column (and no migration adds one), so the key is never present in a row
dictionary and `.get` always yields `None`. -/
def getReviewedById (_p : Profile) : Option Nat := none

/-- Replies (or aborts) `handlers.admin_review_cb` can produce.  Two
branches die in an `AttributeError` instead of replying:
`crashNoReviewFunction` models the accept branch calling
`db.update_profile_status_and_review`, a function `src/db.py` does not
define, before any store mutation; `crashNoCacheDelete` models the reject
and delete branches calling `profile_cache.delete(username)` right after a
successful `db.delete_profile` — `cache_manager.PersistentProfileCache`
defines no `delete` method (only `get`/`set`/`update`/`invalidate`/…), so
the handler aborts before sending any reply or submitter notification,
while the database deletion has already committed on its own connection.
Both exceptions are caught only by the global error handler in
`src/main.py`. -/
inductive ReviewReply
  | accessDenied
  | notFound
  | alreadyReviewed
  | crashNoReviewFunction
  | crashNoCacheDelete
  | rejectFailed
  | deleteFailed (username : String)
  | unknownAction
deriving Repr, DecidableEq

/-- `handlers.admin_review_cb` for callback data `review:{pid}:{action}`
(the string split and int parse of the payload are elided: `pid` and
`action` arrive parsed).  `adminIds`/`superAdminId` are
`config.ADMIN_IDS`/`config.SUPER_ADMIN_ID`.  On a successful delete the
resulting state keeps the committed `db.delete_profile` but the handler
aborts in `profile_cache.delete` (see `ReviewReply`). -/
def admin_review_cb (adminIds : List Nat) (superAdminId : Nat) (callerId : Nat)
    (pid : Nat) (action : String) (db : DB) : ReviewReply × DB :=
  if callerId ≠ superAdminId ∧ callerId ∉ adminIds then (ReviewReply.accessDenied, db)
  else
    match get_profile_by_id pid db with
    | none => (ReviewReply.notFound, db)
    | some profile =>
      if (getReviewedById profile).isSome then (ReviewReply.alreadyReviewed, db)
      else if action = "accept" then
        (ReviewReply.crashNoReviewFunction, db)
      else if action = "reject" then
        let r := delete_profile profile.username db
        if r.1 then (ReviewReply.crashNoCacheDelete, r.2)
        else (ReviewReply.rejectFailed, r.2)
      else if action = "delete" then
        let r := delete_profile profile.username db
        if r.1 then (ReviewReply.crashNoCacheDelete, r.2)
        else (ReviewReply.deleteFailed profile.username, r.2)
      else (ReviewReply.unknownAction, db)

/-! ## `src/handlers.py`: new-profile confirmation -/

/-- The typed counterpart of `validators.sanitize_profile_data` applied to
the draft dictionary built by `new_profile_receive` /
`try_auto_profile_submit`: `None` values and integers pass through, the
`note` string is stripped only, every other string field goes through
`sanitize_text`. -/
def sanitizeNewProfile (p : NewProfile) : NewProfile :=
  { username := sanitize_text p.username,
    age := p.age,
    name := p.name.map sanitize_text,
    country := p.country.map sanitize_text,
    city := p.city.map sanitize_text,
    timezone := p.timezone.map sanitize_text,
    tz_offset := p.tz_offset,
    languages := p.languages.map sanitize_text,
    note := p.note.map (fun s => (pyStrip s.toList).asString),
    added_by := p.added_by.map sanitize_text,
    added_by_id := p.added_by_id,
    status := p.status.map sanitize_text,
    added_at := p.added_at.map sanitize_text }

/-- The validation step of `new_profile_confirm_cb`:
`validate_profile_text(profile_text) if profile_text else (True, None)`. -/
def noteValidation (p : NewProfile) : Bool × Option String :=
  let profileText := p.note.getD ""
  if profileText ≠ "" then validate_profile_text profileText else (true, none)

/-- Replies (or aborts) of `handlers.new_profile_confirm_cb`.  `saved`
carries the new row id and the ids notified for review
(`set(ADMIN_IDS) | {SUPER_ADMIN_ID}`).  `crashNoCacheDelete` models the
non-approved-leftover branch: after `db.delete_profile` the source calls
`profile_cache.delete(username)`, a method
`cache_manager.PersistentProfileCache` does not define, so an
`AttributeError` aborts the handler before the `try:` block containing
`db.add_profile` — the new record is never inserted, no reply is sent and
no admin is notified, while the database deletion has already committed. -/
inductive ConfirmReply
  | noData
  | invalid (msg : String)
  | alreadyApprovedConflict (username : String)
  | crashNoCacheDelete
  | saved (pid : Nat) (notified : List Nat)
  | saveError
deriving Repr, DecidableEq

/-- `set(config.ADMIN_IDS or []) | {config.SUPER_ADMIN_ID}` (the super-admin
id is added when truthy, i.e. nonzero); modelled as a list without
duplicating an id already present. -/
def notifiedAdmins (adminIds : List Nat) (superAdminId : Nat) : List Nat :=
  if superAdminId ≠ 0 ∧ superAdminId ∉ adminIds then adminIds ++ [superAdminId]
  else adminIds

/-- The save step shared by both fall-through paths of
`new_profile_confirm_cb` (the `try:` block around `db.add_profile`). -/
def saveNewProfile (adminIds : List Nat) (superAdminId : Nat)
    (profile : NewProfile) (db : DB) : ConfirmReply × DB :=
  match add_profile profile db with
  | Except.ok r => (ConfirmReply.saved r.1 (notifiedAdmins adminIds superAdminId), r.2)
  | Except.error _ => (ConfirmReply.saveError, db)

/-- `handlers.new_profile_confirm_cb`: validate the draft note, sanitize the
draft, refuse when an approved profile already holds the username.  On a
non-approved leftover the source runs `db.delete_profile(username)` and
then dies in `profile_cache.delete(username)` (no such method) before ever
reaching `db.add_profile` — modelled by `crashNoCacheDelete` paired with
the post-delete store.  Only on a free username does the handler reach the
insert-and-notify step. -/
def new_profile_confirm_cb (adminIds : List Nat) (superAdminId : Nat)
    (preview : Option NewProfile) (db : DB) : ConfirmReply × DB :=
  match preview with
  | none => (ConfirmReply.noData, db)
  | some profile₀ =>
    let v := noteValidation profile₀
    if v.1 = false then (ConfirmReply.invalid (v.2.getD ""), db)
    else
      let profile := sanitizeNewProfile profile₀
      let username := profile.username
      match get_profile_by_username username db with
      | some existing =>
        if existing.status = some "approved" then
          (ConfirmReply.alreadyApprovedConflict username, db)
        else
          (ConfirmReply.crashNoCacheDelete, (delete_profile username db).2)
      | none => saveNewProfile adminIds superAdminId profile db

/-! ## `src/handlers.py`: edit flow -/

/-- The per-user `context.user_data` keys the edit flow uses. -/
structure EditSession where
  edit_username : Option String := none
  edit_profile_preview : Option Profile := none
deriving Repr, DecidableEq

/-- Replies of the edit flow handlers. -/
inductive EditReply
  | profileNotFound
  | accessDenied
  | promptNewText (username : String)
  | noData
  | sentToReview
  | updateFailed
deriving Repr, DecidableEq

/-- `handlers.edit_profile_cb` (entry of the edit conversation): only the
profile's submitter (`added_by_id`) or a member of `config.ADMIN_IDS` may
proceed; everyone else gets an access-denied reply and nothing is stored. -/
def edit_profile_cb (adminIds : List Nat) (callerId : Nat) (username : String)
    (sess : EditSession) (db : DB) : EditReply × EditSession × DB :=
  match get_profile_by_username username db with
  | none => (EditReply.profileNotFound, sess, db)
  | some profile =>
    if some callerId ≠ profile.added_by_id ∧ callerId ∉ adminIds then
      (EditReply.accessDenied, sess, db)
    else
      (EditReply.promptNewText username, { sess with edit_username := some username }, db)

/-- `handlers.edit_profile_confirm_cb`: write the previewed note via
`db.update_profile` and clear the session (`if not profile or not username`
refuses with a no-data reply). -/
def edit_profile_confirm_cb (sess : EditSession) (db : DB) : EditReply × EditSession × DB :=
  match sess.edit_profile_preview, sess.edit_username with
  | some profile, some username =>
    let r := update_profile username { note := some profile.note } db
    if r.1 then (EditReply.sentToReview, {}, r.2)
    else (EditReply.updateFailed, {}, r.2)
  | _, _ => (EditReply.noData, sess, db)

/-! ## `src/handlers.py`: AFK flow -/

/-- Conversation state ids from `src/handlers.py`. -/
def AFK_WAIT_DAYS : Int := 4

/-- Second AFK waiting state. -/
def AFK_WAIT_REASON : Int := 5

/-- `ConversationHandler.END` (the `-1` the handlers return). -/
def CONV_END : Int := -1

/-- Result of one AFK step: the state returned to the conversation router
and the `afk_days` entry of `context.user_data` afterwards. -/
structure AfkDaysResult where
  nextState : Int
  afk_days : Option Int
deriving Repr, DecidableEq

/-- `handlers.afk_receive_days`: `int(text.strip())` in `[1, 14]` advances
to the reason state and records the day count; a `ValueError` or an
out-of-range value re-prompts the same state and leaves `user_data`
alone. -/
def afk_receive_days (text : String) (afk_days : Option Int) : AfkDaysResult :=
  match pyParseInt text with
  | none => { nextState := AFK_WAIT_DAYS, afk_days := afk_days }
  | some days =>
    if days < 1 ∨ 14 < days then { nextState := AFK_WAIT_DAYS, afk_days := afk_days }
    else { nextState := AFK_WAIT_REASON, afk_days := some days }

/-- Result of the terminal AFK step: next conversation state, `afk_days`
after the `pop`, and the report stored (if any). -/
structure AfkReasonResult where
  nextState : Int
  afk_days : Option Int
  report : Option NewReport
deriving Repr, DecidableEq

/-- The reason string `handlers.afk_receive_reason` synthesizes:
`f"AFK на {days} дней. Причина: {reason}"`. -/
def afkReasonString (days : Int) (reason : String) : String :=
  "AFK на " ++ toString days ++ " дней. Причина: " ++ reason

/-- `handlers.afk_receive_reason`: an empty (stripped) reason re-prompts;
otherwise the reason is truncated to 500 characters and stored as a
`Report` dictionary with category `afk_request`. -/
def afk_receive_reason (text : String) (afk_days : Option Int)
    (uid : Nat) (uname : String) : AfkReasonResult :=
  let reason := pyStrip text.toList
  let days := afk_days.getD 1
  if reason = [] then
    { nextState := AFK_WAIT_REASON, afk_days := afk_days, report := none }
  else
    let reason := if 500 < reason.length then reason.take 500 else reason
    { nextState := CONV_END, afk_days := none,
      report := some
        { reporter_id := some uid, reporter_username := some uname,
          category := some "afk_request", target_identifier := none,
          reason := some (afkReasonString days reason.asString),
          attachments := none, created_at := some iso_now } }

/-! ## `src/handlers.py`: free-text report parsing, and `src/main.py` dispatch -/

/-- Left word-boundary test of `\b` before a word character: satisfied at
the start of the text or after a non-word character. -/
def boundaryBefore (prev : Option Char) : Bool :=
  match prev with
  | none => true
  | some c => !isWordChar c

/-- Right word-boundary test of `\b` after a word character: satisfied at
the end of the text or before a non-word character. -/
def boundaryAfter (rest : List Char) : Bool :=
  match rest.head? with
  | none => true
  | some c => !isWordChar c

/-- Does one of the keyword stems of `(?i)\b(репорт\w*|жалоб\w*)` start
here (case-insensitively)?  The `\w*` tails constrain nothing. -/
def reportKwHere (s : List Char) : Bool :=
  ((s.take 6).map pyLower == "репорт".toList) || ((s.take 5).map pyLower == "жалоб".toList)

/-- Scan for `(?i)\b(репорт\w*|жалоб\w*)` (`re.search`: anywhere in the
text), carrying the previous character for the boundary test. -/
def reportKwScan : Option Char → List Char → Bool
  | _, [] => false
  | prev, c :: rest =>
    (boundaryBefore prev && reportKwHere (c :: rest)) || reportKwScan (some c) rest

/-- The quick keyword check of `try_auto_report_submit` and the entry
regex of `report_conv` in `src/main.py`. -/
def matchesReportKeyword (l : List Char) : Bool := reportKwScan none l

/-- The alternatives of `(?i)\b(bot|бот|канал|channel|группа|чат|group|chat)\b`
in source order (`re` tries alternatives left to right). -/
def catAlternatives : List (List Char) :=
  ["bot".toList, "бот".toList, "канал".toList, "channel".toList,
   "группа".toList, "чат".toList, "group".toList, "chat".toList]

/-- Try the category alternatives at the current position, requiring both
word boundaries; returns the matched slice of the original text
(`m.group(0)`). -/
def catTokenHere (prev : Option Char) (s : List Char) : Option (List Char) :=
  if boundaryBefore prev then
    catAlternatives.findSome? (fun alt =>
      let slice := s.take alt.length
      if slice.map pyLower == alt && boundaryAfter (s.drop alt.length) then some slice
      else none)
  else none

/-- Leftmost-match scan for the category regex. -/
def catTokenScan : Option Char → List Char → Option (List Char)
  | _, [] => none
  | prev, c :: rest =>
    match catTokenHere prev (c :: rest) with
    | some tok => some tok
    | none => catTokenScan (some c) rest

/-- `re.search` of the category regex over the whole text. -/
def findCategoryToken (l : List Char) : Option (List Char) := catTokenScan none l

/-- `handlers.try_auto_report_submit`'s `cat_map`, looked up on the
lowercased matched group with default `'chat'`. -/
def cat_map : List (String × String) :=
  [("бот", "bot"), ("bot", "bot"), ("канал", "channel"), ("channel", "channel"),
   ("группа", "chat"), ("чат", "chat"), ("group", "chat"), ("chat", "chat")]

/-- `cat_map.get(raw_cat, 'chat')`. -/
def catMapLookup (raw : String) : String :=
  (((cat_map.find? (fun kv => kv.1 == raw)).map (fun kv => kv.2)).getD "chat")

/-- `re.split(re.escape(m.group(0)), text, maxsplit=1, flags=re.I)`:
the tail after the first case-insensitive occurrence of the matched token
(the split pattern carries no word boundaries). -/
def splitTailAfterFirstCI (tok : List Char) : List Char → Option (List Char)
  | [] => none
  | l@(_ :: rest) =>
    if (l.take tok.length).map pyLower == tok.map pyLower then some (l.drop tok.length)
    else splitTailAfterFirstCI tok rest

/-- The separator class of `re.sub(r'^[\s:—\-]+', '', tail)`. -/
def isReasonSep (c : Char) : Bool :=
  isPyWs c || c == ':' || c == '—' || c == '-'

/-- One attempt of the fallback regex
`(?i)(?:причина[:\-]?\s*)(.+)$` at the current position: after the stem an
optional `:`/`-` и then whitespace are skipped; `(.+)$` succeeds exactly
when the remainder is nonempty and newline-free apart from a final newline
(which the dollar anchor leaves outside the capture).  The captured group is
then `strip`ped by the caller's `m2.group(1).strip()`. -/
def prichHere (s : List Char) : Option (List Char) :=
  let pat := "причина".toList
  if (s.take pat.length).map pyLower == pat then
    let r := s.drop pat.length
    let r := match r with
             | c :: rs => if c == ':' || c == '-' then rs else c :: rs
             | [] => []
    let r := r.dropWhile isPyWs
    let g := if r.getLast? = some '\n' then r.dropLast else r
    if g ≠ [] ∧ !g.contains '\n' then some (pyStrip g) else none
  else none

/-- Leftmost-successful-match scan for the fallback reason regex. -/
def prichScan : List Char → Option (List Char)
  | [] => none
  | l@(_ :: rest) =>
    match prichHere l with
    | some r => some r
    | none => prichScan rest

/-- Outcome of `handlers.try_auto_report_submit` on one message.  `submitted`
carries the stored category and (400-truncated) reason. -/
inductive AutoReportResult
  | noProfile
  | ignoredEmpty
  | ignoredNoKeyword
  | promptCategories
  | askReason (cat : String)
  | submitted (cat : String) (reason : String)
deriving Repr, DecidableEq

/-- `handlers.try_auto_report_submit`: parse a message like
`репорт чат: причина` and submit a report in one shot.  `hasProfile` is the
outcome of the guard `db.get_profile_by_username(user.username)`. -/
def try_auto_report_submit (hasProfile : Bool) (text : String) : AutoReportResult :=
  if !hasProfile then AutoReportResult.noProfile
  else
    let t := pyStrip text.toList
    if t = [] then AutoReportResult.ignoredEmpty
    else if !matchesReportKeyword t then AutoReportResult.ignoredNoKeyword
    else
      match findCategoryToken t with
      | none => AutoReportResult.promptCategories
      | some tok =>
        let cat := catMapLookup (tok.map pyLower).asString
        let fromSplit :=
          match splitTailAfterFirstCI tok t with
          | some tail =>
            let tail := pyStrip tail
            let tail := tail.dropWhile isReasonSep
            if tail ≠ [] then some tail else none
          | none => none
        match fromSplit with
        | some reason => AutoReportResult.submitted cat (reason.take 400).asString
        | none =>
          match prichScan t with
          | some reason => AutoReportResult.submitted cat (reason.take 400).asString
          | none => AutoReportResult.askReason cat

/-- Replies of `handlers.report_start`. -/
inductive ReportStartReply
  | needProfile
  | chooseCategory
deriving Repr, DecidableEq

/-- `handlers.report_start`: requires a profile when the sender has a
username, then shows the category keyboard; it stores nothing. -/
def report_start (username : Option String) (db : DB) : ReportStartReply × DB :=
  match username with
  | some u =>
    match get_profile_by_username u db with
    | none => (ReportStartReply.needProfile, db)
    | some _ => (ReportStartReply.chooseCategory, db)
  | none => (ReportStartReply.chooseCategory, db)

/-- The registered handlers of `src/main.py` that can receive a plain
(non-command) text message, identified by registration order. -/
inductive TextHandler
  | reportConvEntry
  | afkConvEntry
  | adminAppConvEntry
  | usersListEntry
  | chatInfoCmd
  | adminsListEntry
  | profileMenuEntry
  | adminPanelEntry
  | afkMenuEntry
  | adminAppMenuEntry
  | tryAutoProfileSubmit
deriving Repr, DecidableEq

/-- First-match dispatch of `src/main.py` for a plain text message from a
user with no active conversation: `python-telegram-bot` hands the update to
the first handler (in `add_handler` order, all in group 0) whose filter
matches.  The conversation handlers match through their entry points
(`new_conv` and `edit_conv` have callback-only entries and never match
text); `filters.Regex` is `re.search`, so the anchored menu patterns are
exact matches and the report pattern matches anywhere. -/
def firstTextHandler (text : String) : TextHandler :=
  if text = "Репорт" ∨ matchesReportKeyword text.toList then TextHandler.reportConvEntry
  else if text = "AFK" then TextHandler.afkConvEntry
  else if text = "Заявка на админа" then TextHandler.adminAppConvEntry
  else if text = "Информация о пользователях" then TextHandler.usersListEntry
  else if text = "Информация о чате" then TextHandler.chatInfoCmd
  else if text = "Админы" then TextHandler.adminsListEntry
  else if text = "Анкета" then TextHandler.profileMenuEntry
  else if text = "Админ панель" then TextHandler.adminPanelEntry
  else if text = "AFK" then TextHandler.afkMenuEntry
  else if text = "Заявка на админа" then TextHandler.adminAppMenuEntry
  else TextHandler.tryAutoProfileSubmit

/-! ## Predicates and fixtures used by the claim statements -/

/-- No two adjacent whitespace characters (how a text looks after its
whitespace runs have been collapsed). -/
def okRun : List Char → Bool
  | a :: b :: rest => (!(isPyWs a && isPyWs b)) && okRun (b :: rest)
  | _ => true

/-- No two rows of the store share a (case-sensitively equal) username —
the invariant SQLite's UNIQUE constraint maintains. -/
def UsernamesDistinct (db : DB) : Prop :=
  db.profiles.Pairwise (fun p q => p.username ≠ q.username)

/-- Every row id is below the AUTOINCREMENT counter; every store built by
the operations of this file satisfies this. -/
def IdsBounded (db : DB) : Prop :=
  ∀ p ∈ db.profiles, p.id < db.nextProfileId

/-- Fixture: a pending submission awaiting review. -/
def profileC1 : Profile :=
  { id := 1, username := "alice", note := some "просто анкета алисы",
    added_by := some "alice", added_by_id := some 1001,
    status := some "pending", added_at := some iso_now }

/-- Fixture: store holding only the pending submission. -/
def dbC1 : DB :=
  { profiles := [profileC1], nextProfileId := 2, reports := [], nextReportId := 1 }

/-- Fixture: an approved profile occupying the username `alice`. -/
def dbC2 : DB :=
  { profiles := [{ id := 1, username := "alice", status := some "approved",
                   added_by := some "seed" }],
    nextProfileId := 2, reports := [], nextReportId := 1 }

/-- Fixture: a draft whose username differs from `alice` only in case. -/
def draftC2 : NewProfile := { username := "Alice", status := some "approved" }

/-- Fixture: a valid pending draft for the username `carol`. -/
def draftC3 : NewProfile :=
  { username := "carol", note := some "анкета пользователя кэрол",
    added_by := some "carol", added_by_id := some 7,
    status := some "pending", added_at := some iso_now }

/-- Fixture: `carol` already approved. -/
def dbC3approved : DB :=
  { profiles := [{ id := 1, username := "carol", status := some "approved" }],
    nextProfileId := 2, reports := [], nextReportId := 1 }

/-- Fixture: a non-approved leftover under `carol`. -/
def dbC3leftover : DB :=
  { profiles := [{ id := 1, username := "carol", status := some "pending" }],
    nextProfileId := 2, reports := [], nextReportId := 1 }

/-- Fixture: an empty store. -/
def dbC3empty : DB :=
  { profiles := [], nextProfileId := 1, reports := [], nextReportId := 1 }

/-- Fixture: a pending submission by `dave`. -/
def profileC4 : Profile :=
  { id := 1, username := "dave", status := some "pending",
    added_by := some "dave", added_by_id := some 500 }

/-- Fixture: store holding only `dave`'s pending submission. -/
def dbC4 : DB :=
  { profiles := [profileC4], nextProfileId := 2, reports := [], nextReportId := 1 }

/-- Fixture: `dave`'s resubmitted draft after the rejection. -/
def draftC4 : NewProfile :=
  { username := "dave", note := some "новая анкета пользователя дейва",
    added_by := some "dave", added_by_id := some 500,
    status := some "pending", added_at := some iso_now }

/-- Fixture: a profile submitted by user 42. -/
def profileC5 : Profile :=
  { id := 1, username := "erin", added_by_id := some 42,
    status := some "approved", note := some "старый текст" }

/-- Fixture: store holding `erin`'s profile. -/
def dbC5 : DB :=
  { profiles := [profileC5], nextProfileId := 2, reports := [], nextReportId := 1 }

/-- Fixture: a profile dictionary with a multi-line note, a string field,
an integer and a `None`. -/
def dataC7 : List (String × PValue) :=
  [("username", PValue.str "frank"),
   ("note", PValue.str "  первая строка\nвторая  строка  "),
   ("age", PValue.int 16),
   ("city", PValue.null)]

/-! ## Helper lemmas about the text primitives -/

theorem all_takeWhile (p : Char → Bool) (l : List Char) :
    (l.takeWhile p).all p = true := by
  rw [List.all_eq_true]
  exact fun c hc => List.mem_takeWhile_imp hc

theorem strip_decomp (l : List Char) :
    ∃ pre post, pre.all isPyWs = true ∧ post.all isPyWs = true ∧
      l = pre ++ pyStrip l ++ post := by
  refine ⟨l.takeWhile isPyWs,
    ((l.dropWhile isPyWs).reverse.takeWhile isPyWs).reverse, all_takeWhile .., ?_, ?_⟩
  · rw [List.all_eq_true]
    intro c hc
    rw [List.mem_reverse] at hc
    exact List.mem_takeWhile_imp hc
  · conv_lhs => rw [← List.takeWhile_append_dropWhile (p := isPyWs) (l := l)]
    rw [List.append_assoc]
    congr 1
    unfold pyStrip
    conv_lhs => rw [← List.reverse_reverse (l.dropWhile isPyWs),
      ← List.takeWhile_append_dropWhile (p := isPyWs) (l := (l.dropWhile isPyWs).reverse)]
    rw [List.reverse_append]

theorem head?_dropWhile_not (p : Char → Bool) (l : List Char) :
    ∀ c, (l.dropWhile p).head? = some c → p c = false := by
  induction l with
  | nil => simp
  | cons a rest ih =>
    intro c h
    rw [List.dropWhile_cons] at h
    by_cases hp : p a = true
    · rw [if_pos hp] at h; exact ih c h
    · rw [if_neg hp] at h
      simp only [List.head?_cons, Option.some.injEq] at h
      subst h
      exact Bool.eq_false_iff.mpr hp

theorem collapseWsAux_ws_space :
    ∀ (l : List Char) (b : Bool) (c : Char),
      c ∈ collapseWsAux b l → isPyWs c = true → c = ' ' := by
  intro l
  induction l with
  | nil => intro b c hc; simp [collapseWsAux] at hc
  | cons a rest ih =>
    intro b c hc hw
    by_cases ha : isPyWs a = true
    · cases b with
      | true =>
        rw [show collapseWsAux true (a :: rest) = collapseWsAux true rest by
          simp [collapseWsAux, ha]] at hc
        exact ih true c hc hw
      | false =>
        rw [show collapseWsAux false (a :: rest) = ' ' :: collapseWsAux true rest by
          simp [collapseWsAux, ha]] at hc
        rcases List.mem_cons.mp hc with h | h
        · exact h
        · exact ih true c h hw
    · have ha' : isPyWs a = false := Bool.eq_false_iff.mpr ha
      rw [show collapseWsAux b (a :: rest) = a :: collapseWsAux false rest by
        simp [collapseWsAux, ha']] at hc
      rcases List.mem_cons.mp hc with h | h
      · subst h; rw [ha'] at hw; exact absurd hw (by simp)
      · exact ih false c h hw

theorem collapseWsAux_head_true :
    ∀ (l : List Char) (c : Char),
      (collapseWsAux true l).head? = some c → isPyWs c = false := by
  intro l
  induction l with
  | nil => intro c h; simp [collapseWsAux] at h
  | cons a rest ih =>
    intro c h
    by_cases ha : isPyWs a = true
    · rw [show collapseWsAux true (a :: rest) = collapseWsAux true rest by
        simp [collapseWsAux, ha]] at h
      exact ih c h
    · have ha' : isPyWs a = false := Bool.eq_false_iff.mpr ha
      rw [show collapseWsAux true (a :: rest) = a :: collapseWsAux false rest by
        simp [collapseWsAux, ha']] at h
      simp only [List.head?_cons, Option.some.injEq] at h
      subst h
      exact ha'

theorem okRun_cons_of (a : Char) (l : List Char)
    (hhead : ∀ c, l.head? = some c → (isPyWs a && isPyWs c) = false)
    (htail : okRun l = true) : okRun (a :: l) = true := by
  cases l with
  | nil => rfl
  | cons b rest =>
    have hb := hhead b rfl
    simp only [okRun, Bool.and_eq_true, Bool.not_eq_true']
    exact ⟨hb, htail⟩

theorem okRun_collapseWsAux : ∀ (l : List Char) (b : Bool), okRun (collapseWsAux b l) = true := by
  intro l
  induction l with
  | nil => intro b; rfl
  | cons a rest ih =>
    intro b
    by_cases ha : isPyWs a = true
    · cases b with
      | true =>
        rw [show collapseWsAux true (a :: rest) = collapseWsAux true rest by
          simp [collapseWsAux, ha]]
        exact ih true
      | false =>
        rw [show collapseWsAux false (a :: rest) = ' ' :: collapseWsAux true rest by
          simp [collapseWsAux, ha]]
        refine okRun_cons_of _ _ ?_ (ih true)
        intro c hc
        rw [collapseWsAux_head_true rest c hc, Bool.and_false]
    · have ha' : isPyWs a = false := Bool.eq_false_iff.mpr ha
      rw [show collapseWsAux b (a :: rest) = a :: collapseWsAux false rest by
        simp [collapseWsAux, ha']]
      refine okRun_cons_of _ _ ?_ (ih false)
      intro c _
      rw [ha', Bool.false_and]

theorem collapseWs_ws_space (l : List Char) (c : Char)
    (hc : c ∈ collapseWs l) (hw : isPyWs c = true) : c = ' ' :=
  collapseWsAux_ws_space l false c hc hw

theorem okRun_collapseWs (l : List Char) : okRun (collapseWs l) = true :=
  okRun_collapseWsAux l false

theorem newline_not_mem_collapseWs (l : List Char) : ¬ '\n' ∈ collapseWs l := by
  intro h
  have := collapseWs_ws_space l '\n' h (by decide)
  exact absurd this (by decide)

theorem isPrefixOf_append_self :
    ∀ (pat post : List Char), pat.isPrefixOf (pat ++ post) = true := by
  intro pat post
  induction pat with
  | nil => rw [List.nil_append]; cases post <;> rfl
  | cons a as ih => simp [List.isPrefixOf, ih]

theorem listContains_append (pre pat post : List Char) :
    listContains (pre ++ (pat ++ post)) pat = true := by
  induction pre with
  | nil =>
    rw [List.nil_append]
    cases pat with
    | nil => cases post with
      | nil => rfl
      | cons y ys => simp [listContains, List.isPrefixOf]
    | cons a as =>
      have h1 : (a :: as).isPrefixOf ((a :: as) ++ post) = true :=
        isPrefixOf_append_self (a :: as) post
      rw [List.cons_append] at h1
      rw [List.cons_append, listContains, h1, Bool.true_or]
  | cons p ps ih =>
    rw [List.cons_append, listContains, ih, Bool.or_true]

/-! ## Claim theorems -/

/-- C6: `validate_profile_text` accepts a text exactly when its stripped
length lies in `[MIN_PROFILE_LENGTH, MAX_PROFILE_LENGTH]` = `[10, 5000]` and
its lower-cased stripped form contains none of the `FORBIDDEN_PATTERNS`;
every rejected text comes with an error message (so no such text is
persisted by the confirm handler, which stops on an invalid result). -/
theorem validate_profile_text_spec (text : String) :
    ((validate_profile_text text).1 = true ↔
      (MIN_PROFILE_LENGTH ≤ (pyStrip text.toList).length ∧
       (pyStrip text.toList).length ≤ MAX_PROFILE_LENGTH ∧
       ∀ pat ∈ FORBIDDEN_PATTERNS,
         listContains ((pyStrip text.toList).map pyLower) pat.toList = false))
    ∧ ((validate_profile_text text).1 = false →
        ((validate_profile_text text).2).isSome = true) := by
  simp only [validate_profile_text]
  split_ifs with h1 h2 h3 h4
  · subst h1
    exact ⟨iff_of_false (by simp) (by decide), fun _ => rfl⟩
  · refine ⟨iff_of_false (by simp) ?_, fun _ => rfl⟩
    rintro ⟨ha, -, -⟩
    exact absurd (lt_of_lt_of_le h2 ha) (lt_irrefl _)
  · refine ⟨iff_of_false (by simp) ?_, fun _ => rfl⟩
    rintro ⟨-, hb, -⟩
    exact absurd (lt_of_lt_of_le h3 hb) (lt_irrefl _)
  · refine ⟨iff_of_false (by simp) ?_, fun _ => rfl⟩
    rintro ⟨-, -, hall⟩
    obtain ⟨pat, hmem, hpat⟩ := List.any_eq_true.mp h4
    rw [hall pat hmem] at hpat
    exact absurd hpat (by simp)
  · refine ⟨iff_of_true rfl ⟨le_of_not_lt h2, le_of_not_lt h3, ?_⟩, ?_⟩
    · intro pat hmem
      cases hb : listContains ((pyStrip text.toList).map pyLower) pat.toList with
      | false => rfl
      | true => exact absurd (List.any_eq_true.mpr ⟨pat, hmem, hb⟩) h4
    · intro h
      exact absurd h (by simp)

/-- C6 witness: a concrete rejection carries an error message, and a
concrete ordinary text is accepted. -/
theorem validate_profile_text_spec_witness :
    ((validate_profile_text "short").2).isSome = true ∧
    (validate_profile_text "Обычная анкета участника").1 = true :=
  ⟨(validate_profile_text_spec "short").2 (by decide),
   (validate_profile_text_spec "Обычная анкета участника").1.mpr (by decide)⟩

/-- C10: the spam heuristic returns `false` for every text shorter than 5
characters, whatever the text and the threshold. -/
theorem is_spam_short_false (text : String) (threshold : ℚ)
    (h : text.length < 5) : is_spam text threshold = false := by
  unfold is_spam
  rw [if_pos (Or.inr h)]

/-- C10 witness: concrete short inputs, including the empty string. -/
theorem is_spam_short_false_witness :
    is_spam "AB!@" (1/2) = false ∧ is_spam "" 0 = false :=
  ⟨is_spam_short_false "AB!@" (1/2) (by decide),
   is_spam_short_false "" 0 (by decide)⟩

/-- C7: `sanitize_profile_data` maps the `note` field to its mere strip —
the input is the stripped value surrounded by purely-whitespace margins, so
every internal character (line breaks included) is kept verbatim — while
every other string field goes through `sanitize_text`, whose output has no
two adjacent whitespace characters, no newline, and only the plain space as
whitespace (whitespace runs collapsed to single spaces). -/
theorem sanitize_profile_data_note_vs_rest
    (data : List (String × PValue)) (key : String) (s : String)
    (hmem : (key, PValue.str s) ∈ data) :
    (key = "note" →
      ((key, PValue.str (pyStrip s.toList).asString) ∈ sanitize_profile_data data ∧
       ∃ pre post, pre.all isPyWs = true ∧ post.all isPyWs = true ∧
         s.toList = pre ++ pyStrip s.toList ++ post)) ∧
    (key ≠ "note" →
      ((key, PValue.str (sanitize_text s)) ∈ sanitize_profile_data data ∧
       okRun (sanitize_text s).toList = true ∧
       ¬ '\n' ∈ (sanitize_text s).toList ∧
       ∀ c ∈ (sanitize_text s).toList, isPyWs c = true → c = ' ')) := by
  constructor
  · intro hk
    refine ⟨?_, strip_decomp s.toList⟩
    have h := List.mem_map_of_mem (f := fun kv : String × PValue =>
      match kv with
      | (k, PValue.null) => (k, PValue.null)
      | (k, PValue.str t) =>
        if k = "note" then (k, PValue.str (pyStrip t.toList).asString)
        else (k, PValue.str (sanitize_text t))
      | (k, PValue.int n) => (k, PValue.int n)) hmem
    simpa [sanitize_profile_data, if_pos hk] using h
  · intro hk
    have hmap : (key, PValue.str (sanitize_text s)) ∈ sanitize_profile_data data := by
      have h := List.mem_map_of_mem (f := fun kv : String × PValue =>
        match kv with
        | (k, PValue.null) => (k, PValue.null)
        | (k, PValue.str t) =>
          if k = "note" then (k, PValue.str (pyStrip t.toList).asString)
          else (k, PValue.str (sanitize_text t))
        | (k, PValue.int n) => (k, PValue.int n)) hmem
      simpa [sanitize_profile_data, if_neg hk] using h
    refine ⟨hmap, ?_, ?_, ?_⟩
    · by_cases hs : s = ""
      · subst hs; rfl
      · show okRun ((sanitize_text s).toList) = true
        rw [show sanitize_text s = (collapseWs (pyStrip s.toList)).asString from by
          simp [sanitize_text, hs]]
        exact okRun_collapseWs (pyStrip s.toList)
    · by_cases hs : s = ""
      · subst hs; simp [sanitize_text]
      · rw [show sanitize_text s = (collapseWs (pyStrip s.toList)).asString from by
          simp [sanitize_text, hs]]
        exact newline_not_mem_collapseWs (pyStrip s.toList)
    · by_cases hs : s = ""
      · subst hs; simp [sanitize_text]
      · rw [show sanitize_text s = (collapseWs (pyStrip s.toList)).asString from by
          simp [sanitize_text, hs]]
        exact fun c hc hw => collapseWs_ws_space (pyStrip s.toList) c hc hw

/-- C7 witness: the fixture dictionary keeps the note's internal line break
and collapses nothing else there, while the `username` field goes through
`sanitize_text`. -/
theorem sanitize_profile_data_note_vs_rest_witness :
    ("note", PValue.str (pyStrip "  первая строка\nвторая  строка  ".toList).asString)
        ∈ sanitize_profile_data dataC7 ∧
    ("username", PValue.str (sanitize_text "frank")) ∈ sanitize_profile_data dataC7 ∧
    okRun (sanitize_text "frank").toList = true :=
  ⟨((sanitize_profile_data_note_vs_rest dataC7 "note" "  первая строка\nвторая  строка  "
      (by decide)).1 rfl).1,
   ((sanitize_profile_data_note_vs_rest dataC7 "username" "frank" (by decide)).2
      (by decide)).1,
   ((sanitize_profile_data_note_vs_rest dataC7 "username" "frank" (by decide)).2
      (by decide)).2.1⟩

theorem afkReason_contains (d : Int) (s : String) :
    listContains (afkReasonString d s).toList
      ((toString d).toList ++ " дней".toList) = true := by
  have h := listContains_append "AFK на ".toList
    ((toString d).toList ++ " дней".toList) (". Причина: ".toList ++ s.toList)
  have heq : "AFK на ".toList ++ (((toString d).toList ++ " дней".toList) ++
      (". Причина: ".toList ++ s.toList)) = (afkReasonString d s).toList := by
    show _ = (afkReasonString d s).data
    simp only [afkReasonString, String.data_append]
    simp [List.append_assoc, List.cons_append, List.nil_append]
  rw [heq] at h
  exact h

/-- C8: in the AFK flow a day-count message advances to the reason state
exactly when it parses as an integer in `[1, 14]` (recording that value);
any other message re-prompts the day state leaving `user_data` untouched;
the terminal step stores a Report dictionary with category `afk_request`
whose reason embeds a ≤500-character reason text and the chosen day count
(`{d} дней`, hence `7 дней` for seven days). -/
theorem afk_flow_spec :
    (∀ (text : String) (days₀ : Option Int),
       (afk_receive_days text days₀ =
           { nextState := AFK_WAIT_REASON, afk_days := pyParseInt text } ∧
         ∃ d, pyParseInt text = some d ∧ 1 ≤ d ∧ d ≤ 14) ∨
       (afk_receive_days text days₀ =
           { nextState := AFK_WAIT_DAYS, afk_days := days₀ } ∧
         ∀ d, pyParseInt text = some d → (d < 1 ∨ 14 < d)))
    ∧ (∀ (text : String) (days₀ : Option Int) (uid : Nat) (uname : String) (rep : NewReport),
        (afk_receive_reason text days₀ uid uname).report = some rep →
        rep.category = some "afk_request" ∧
        ∃ t : List Char, t.length ≤ 500 ∧
          rep.reason = some (afkReasonString (days₀.getD 1) t.asString) ∧
          listContains (afkReasonString (days₀.getD 1) t.asString).toList
            ((toString (days₀.getD 1)).toList ++ " дней".toList) = true) := by
  constructor
  · intro text days₀
    cases h : pyParseInt text with
    | none =>
      refine Or.inr ⟨?_, ?_⟩
      · unfold afk_receive_days
        rw [h]
      · intro d hd
        exact absurd hd (by simp)
    | some d =>
      by_cases hd : d < 1 ∨ 14 < d
      · refine Or.inr ⟨?_, ?_⟩
        · unfold afk_receive_days
          rw [h]
          show (if d < 1 ∨ 14 < d then ({ nextState := AFK_WAIT_DAYS, afk_days := days₀ } : AfkDaysResult)
            else { nextState := AFK_WAIT_REASON, afk_days := some d }) = _
          rw [if_pos hd]
        · intro e he
          simp only [Option.some.injEq] at he
          subst he
          exact hd
      · refine Or.inl ⟨?_, d, rfl, ?_, ?_⟩
        · unfold afk_receive_days
          rw [h]
          show (if d < 1 ∨ 14 < d then ({ nextState := AFK_WAIT_DAYS, afk_days := days₀ } : AfkDaysResult)
            else { nextState := AFK_WAIT_REASON, afk_days := some d }) = _
          rw [if_neg hd]
        · omega
        · omega
  · intro text days₀ uid uname rep h
    unfold afk_receive_reason at h
    by_cases hr : pyStrip text.toList = []
    · rw [if_pos hr] at h
      exact absurd h (by simp)
    · rw [if_neg hr] at h
      simp only [Option.some.injEq] at h
      subst h
      refine ⟨rfl, if 500 < (pyStrip text.toList).length
          then (pyStrip text.toList).take 500 else pyStrip text.toList, ?_, rfl, ?_⟩
      · by_cases hl : 500 < (pyStrip text.toList).length
        · rw [if_pos hl, List.length_take]
          exact min_le_left _ _
        · rw [if_neg hl]
          exact le_of_not_lt hl
      · exact afkReason_contains _ _

/-- C8 witness: 20 is rejected and re-prompted, 7 is accepted, and the
stored AFK report for 7 days carries category `afk_request` and a reason
containing `7 дней`. -/
theorem afk_flow_spec_witness :
    afk_receive_days "20" none = { nextState := AFK_WAIT_DAYS, afk_days := none } ∧
    afk_receive_days "7" none = { nextState := AFK_WAIT_REASON, afk_days := some 7 } ∧
    ((afk_receive_reason "уезжаю к бабушке" (some 7) 11 "dave").report.getD {}).category
      = some "afk_request" ∧
    listContains
      ((((afk_receive_reason "уезжаю к бабушке" (some 7) 11 "dave").report.getD
        {}).reason.getD "").toList) "7 дней".toList = true := by
  refine ⟨by decide, by decide, ?_, ?_⟩
  · exact (afk_flow_spec.2 "уезжаю к бабушке" (some 7) 11 "dave"
      ((afk_receive_reason "уезжаю к бабушке" (some 7) 11 "dave").report.getD {})
      (by decide)).1
  · obtain ⟨-, t, -, hreason, hcontains⟩ := afk_flow_spec.2 "уезжаю к бабушке" (some 7) 11 "dave"
      ((afk_receive_reason "уезжаю к бабушке" (some 7) 11 "dave").report.getD {})
      (by decide)
    rw [hreason]
    exact hcontains

/-- C1 (code bug): no review decision ever succeeds-and-arms the
`already reviewed` refusal.  The guard of `admin_review_cb` can never fire
because no profile row carries a `reviewed_by_id` (the schema has no such
column); an `accept` decision always aborts with an `AttributeError`
(`db.update_profile_status_and_review` does not exist) leaving the store
unchanged; a `reject` decision commits the database delete but then aborts
with an `AttributeError` in `profile_cache.delete` (no such method), never
sending any reply; and afterwards every further decision on the same id is
answered with `profile not found`, not with `already reviewed`. -/
theorem admin_review_single_review_code_bug :
    admin_review_cb [2] 9 2 1 "accept" dbC1 = (ReviewReply.crashNoReviewFunction, dbC1) ∧
    (∀ p : Profile, getReviewedById p = none) ∧
    admin_review_cb [2] 9 2 1 "reject" dbC1 =
      (ReviewReply.crashNoCacheDelete,
       { profiles := [], nextProfileId := 2, reports := [], nextReportId := 1 }) ∧
    admin_review_cb [2] 9 2 1 "accept" (admin_review_cb [2] 9 2 1 "reject" dbC1).2 =
      (ReviewReply.notFound, (admin_review_cb [2] 9 2 1 "reject" dbC1).2) ∧
    admin_review_cb [2] 9 2 1 "reject" (admin_review_cb [2] 9 2 1 "reject" dbC1).2 =
      (ReviewReply.notFound, (admin_review_cb [2] 9 2 1 "reject" dbC1).2) :=
  ⟨by decide, fun _ => rfl, by decide, by decide, by decide⟩

/-- C2 counterexample: with `alice` approved in the store, inserting the
draft `Alice` — equal to `alice` under case-insensitive comparison but not
under SQLite's BINARY collation — is NOT refused, and the resulting store
holds two approved rows whose usernames coincide case-insensitively. -/
theorem username_ci_uniqueness_counterexample :
    (add_profile draftC2 dbC2).toOption =
      some (2,
        { profiles := [{ id := 1, username := "alice", status := some "approved",
                         added_by := some "seed" },
                       mkProfileRow draftC2 2],
          nextProfileId := 3, reports := [], nextReportId := 1 }) ∧
    (mkProfileRow draftC2 2).status = some "approved" ∧
    (mkProfileRow draftC2 2).username ≠ "alice" ∧
    (mkProfileRow draftC2 2).username.toList.map pyLower = "alice".toList.map pyLower := by
  decide

/-- C2 (amended): username uniqueness is case-SENSITIVE.  In a store with
pairwise distinct usernames, inserting a profile whose username exactly
equals an existing row's is refused with the UNIQUE-constraint error
whatever either status is, and any successful insert implies no existing
row had that exact username and preserves pairwise distinctness. -/
theorem add_profile_exact_uniqueness (p : NewProfile) (db : DB)
    (hdist : UsernamesDistinct db) :
    ((∃ q ∈ db.profiles, q.username = p.username) →
       add_profile p db = Except.error "UNIQUE constraint failed: profiles.username") ∧
    (∀ pid db₂, add_profile p db = Except.ok (pid, db₂) →
       (∀ q ∈ db.profiles, q.username ≠ p.username) ∧ UsernamesDistinct db₂) := by
  constructor
  · rintro ⟨q, hq, hu⟩
    unfold add_profile
    rw [if_pos (List.any_eq_true.mpr ⟨q, hq, by simp [hu]⟩)]
  · intro pid db₂ hok
    unfold add_profile at hok
    by_cases hany : db.profiles.any (fun q => q.username == p.username) = true
    · rw [if_pos hany] at hok
      exact absurd hok (by simp)
    · rw [if_neg hany] at hok
      simp only [Except.ok.injEq, Prod.mk.injEq] at hok
      have hno : ∀ q ∈ db.profiles, q.username ≠ p.username := by
        intro q hq hne
        exact hany (List.any_eq_true.mpr ⟨q, hq, by simp [hne]⟩)
      refine ⟨hno, ?_⟩
      rw [← hok.2]
      unfold UsernamesDistinct
      rw [List.pairwise_append]
      refine ⟨hdist, List.pairwise_singleton _ _, ?_⟩
      intro a ha b hb
      rw [List.mem_singleton] at hb
      subst hb
      exact hno a ha
  
/-- C2 witness: inserting the exact username `alice` into the fixture store
is refused with the UNIQUE-constraint error. -/
theorem add_profile_exact_uniqueness_witness :
    add_profile { username := "alice" } dbC2 =
      Except.error "UNIQUE constraint failed: profiles.username" :=
  (add_profile_exact_uniqueness { username := "alice" } dbC2
      (by unfold UsernamesDistinct dbC2; simp)).1
    ⟨{ id := 1, username := "alice", status := some "approved", added_by := some "seed" },
     by decide, rfl⟩

theorem confirm_cases (adminIds : List Nat) (superAdminId : Nat)
    (draft : NewProfile) (db : DB) (hval : (noteValidation draft).1 = true) :
    (∀ e, get_profile_by_username (sanitizeNewProfile draft).username db = some e →
       new_profile_confirm_cb adminIds superAdminId (some draft) db =
         (if e.status = some "approved"
          then (ConfirmReply.alreadyApprovedConflict (sanitizeNewProfile draft).username, db)
          else (ConfirmReply.crashNoCacheDelete,
                (delete_profile (sanitizeNewProfile draft).username db).2))) ∧
    (get_profile_by_username (sanitizeNewProfile draft).username db = none →
       new_profile_confirm_cb adminIds superAdminId (some draft) db =
         saveNewProfile adminIds superAdminId (sanitizeNewProfile draft) db) := by
  have heval : new_profile_confirm_cb adminIds superAdminId (some draft) db =
      (match get_profile_by_username (sanitizeNewProfile draft).username db with
       | some existing =>
         if existing.status = some "approved" then
           (ConfirmReply.alreadyApprovedConflict (sanitizeNewProfile draft).username, db)
         else (ConfirmReply.crashNoCacheDelete,
               (delete_profile (sanitizeNewProfile draft).username db).2)
       | none => saveNewProfile adminIds superAdminId (sanitizeNewProfile draft) db) := by
    simp only [new_profile_confirm_cb, hval]
    simp
  constructor
  · intro e he
    rw [heval, he]
  · intro hnone
    rw [heval, hnone]

theorem saveNewProfile_fresh (adminIds : List Nat) (superAdminId : Nat)
    (p : NewProfile) (db : DB)
    (hno : ∀ q ∈ db.profiles, q.username ≠ p.username) :
    saveNewProfile adminIds superAdminId p db =
      (ConfirmReply.saved db.nextProfileId (notifiedAdmins adminIds superAdminId),
       { db with profiles := db.profiles ++ [mkProfileRow p db.nextProfileId],
                 nextProfileId := db.nextProfileId + 1 }) := by
  have hany : ¬ db.profiles.any (fun q => q.username == p.username) = true := by
    intro hc
    obtain ⟨q, hq, hbq⟩ := List.any_eq_true.mp hc
    exact hno q hq (by simpa using hbq)
  unfold saveNewProfile add_profile
  rw [if_neg hany]

theorem delete_kills_username (username : String) (db : DB) :
    get_profile_by_username username (delete_profile username db).2 = none := by
  unfold get_profile_by_username delete_profile
  rw [List.find?_eq_none]
  intro q hq
  rcases List.mem_filter.mp hq with ⟨-, hbne⟩
  simpa using hbne

theorem confirm_none_saves (adminIds : List Nat) (superAdminId : Nat)
    (draft : NewProfile) (db : DB)
    (hval : (noteValidation draft).1 = true)
    (hst : effectiveStatus (sanitizeNewProfile draft) = "pending")
    (hnone : get_profile_by_username (sanitizeNewProfile draft).username db = none) :
    ∃ db₂ row,
      new_profile_confirm_cb adminIds superAdminId (some draft) db =
        (ConfirmReply.saved db.nextProfileId (notifiedAdmins adminIds superAdminId), db₂) ∧
      row ∈ db₂.profiles ∧ row.id = db.nextProfileId ∧
      row.username = (sanitizeNewProfile draft).username ∧
      row.status = some "pending" := by
  have hno : ∀ q ∈ db.profiles, q.username ≠ (sanitizeNewProfile draft).username := by
    intro q hq
    have := List.find?_eq_none.mp hnone q hq
    simpa using this
  rw [(confirm_cases adminIds superAdminId draft db hval).2 hnone,
    saveNewProfile_fresh adminIds superAdminId (sanitizeNewProfile draft) db hno]
  refine ⟨_, mkProfileRow (sanitizeNewProfile draft) db.nextProfileId, rfl, ?_, rfl, rfl, ?_⟩
  · exact List.mem_append_right _ (List.mem_singleton_self _)
  · show some (effectiveStatus (sanitizeNewProfile draft)) = some "pending"
    rw [hst]

/-- C3 (code bug): with a valid draft, `new_profile_confirm_cb` (i) answers
with a conflict and leaves the store untouched when an approved profile
already holds the (sanitized) username, and (iii) on a free username
persists the pending record and notifies the configured admins — but in the
middle case (ii), a non-approved leftover, the handler deletes the leftover
and then aborts with an `AttributeError` in `profile_cache.delete`
(`cache_manager.PersistentProfileCache` has no `delete` method) before the
`db.add_profile` call: afterwards no row holds the username, the
AUTOINCREMENT counter is untouched (nothing was inserted), and no save
reply or admin notification is produced, contradicting the claim that the
new pending record is then persisted. -/
theorem new_profile_confirm_leftover_code_bug (adminIds : List Nat) (superAdminId : Nat)
    (draft : NewProfile) (db : DB)
    (hval : (noteValidation draft).1 = true)
    (hst : effectiveStatus (sanitizeNewProfile draft) = "pending") :
    (∀ e, get_profile_by_username (sanitizeNewProfile draft).username db = some e →
       e.status = some "approved" →
       new_profile_confirm_cb adminIds superAdminId (some draft) db =
         (ConfirmReply.alreadyApprovedConflict (sanitizeNewProfile draft).username, db)) ∧
    (∀ e, get_profile_by_username (sanitizeNewProfile draft).username db = some e →
       e.status ≠ some "approved" →
       new_profile_confirm_cb adminIds superAdminId (some draft) db =
         (ConfirmReply.crashNoCacheDelete,
          (delete_profile (sanitizeNewProfile draft).username db).2) ∧
       get_profile_by_username (sanitizeNewProfile draft).username
         (new_profile_confirm_cb adminIds superAdminId (some draft) db).2 = none ∧
       (new_profile_confirm_cb adminIds superAdminId (some draft) db).2.nextProfileId =
         db.nextProfileId) ∧
    (get_profile_by_username (sanitizeNewProfile draft).username db = none →
       ∃ db₂ row,
         new_profile_confirm_cb adminIds superAdminId (some draft) db =
           (ConfirmReply.saved db.nextProfileId (notifiedAdmins adminIds superAdminId), db₂) ∧
         row ∈ db₂.profiles ∧ row.id = db.nextProfileId ∧
         row.username = (sanitizeNewProfile draft).username ∧
         row.status = some "pending") := by
  refine ⟨?_, ?_, ?_⟩
  · intro e he ha
    rw [(confirm_cases adminIds superAdminId draft db hval).1 e he, if_pos ha]
  · intro e he ha
    have heq := (confirm_cases adminIds superAdminId draft db hval).1 e he
    rw [if_neg ha] at heq
    refine ⟨heq, ?_, ?_⟩
    · rw [heq]
      exact delete_kills_username (sanitizeNewProfile draft).username db
    · rw [heq]
      rfl
  · exact confirm_none_saves adminIds superAdminId draft db hval hst

/-- C3 witness: the three branches at concrete stores — conflict against an
approved `carol`, the crash (with nothing persisted) on a pending leftover,
and a plain save into an empty store. -/
theorem new_profile_confirm_leftover_code_bug_witness :
    new_profile_confirm_cb [2] 9 (some draftC3) dbC3approved =
      (ConfirmReply.alreadyApprovedConflict (sanitizeNewProfile draftC3).username,
       dbC3approved) ∧
    new_profile_confirm_cb [2] 9 (some draftC3) dbC3leftover =
      (ConfirmReply.crashNoCacheDelete,
       (delete_profile (sanitizeNewProfile draftC3).username dbC3leftover).2) ∧
    (new_profile_confirm_cb [2] 9 (some draftC3) dbC3empty).1 =
      ConfirmReply.saved dbC3empty.nextProfileId (notifiedAdmins [2] 9) := by
  refine ⟨?_, ?_, ?_⟩
  · exact (new_profile_confirm_leftover_code_bug [2] 9 draftC3 dbC3approved
      (by decide) (by decide)).1
      { id := 1, username := "carol", status := some "approved" } (by decide) (by decide)
  · exact ((new_profile_confirm_leftover_code_bug [2] 9 draftC3 dbC3leftover
      (by decide) (by decide)).2.1
      { id := 1, username := "carol", status := some "pending" } (by decide) (by decide)).1
  · obtain ⟨db₂, row, heq, -⟩ :=
      (new_profile_confirm_leftover_code_bug [2] 9 draftC3 dbC3empty
        (by decide) (by decide)).2.2 (by decide)
    rw [heq]

theorem admin_review_reject_eval (adminIds : List Nat) (superAdminId callerId pid : Nat)
    (db : DB) (p : Profile)
    (hacc : callerId = superAdminId ∨ callerId ∈ adminIds)
    (hfind : get_profile_by_id pid db = some p) :
    admin_review_cb adminIds superAdminId callerId pid "reject" db =
      (if (delete_profile p.username db).1
       then (ReviewReply.crashNoCacheDelete, (delete_profile p.username db).2)
       else (ReviewReply.rejectFailed, (delete_profile p.username db).2)) := by
  have hcond : ¬(callerId ≠ superAdminId ∧ callerId ∉ adminIds) := by
    rcases hacc with h | h
    · exact fun hc => hc.1 h
    · exact fun hc => hc.2 h
  unfold admin_review_cb
  rw [if_neg hcond, hfind]
  rfl

/-- C4: a `reject` decision on a pending profile deletes its row entirely —
the database delete commits before the handler aborts in
`profile_cache.delete` (the `crashNoCacheDelete` outcome), so looking the
username up afterwards finds nothing — and a fresh submission of a valid
draft under the same username then succeeds without any uniqueness
conflict (the free-username path never touches `profile_cache.delete`),
producing a new row with a fresh id (distinct from the rejected one) and
status `pending`. -/
theorem reject_frees_username (adminIds : List Nat) (superAdminId callerId pid : Nat)
    (p : Profile) (draft : NewProfile) (db : DB)
    (hacc : callerId = superAdminId ∨ callerId ∈ adminIds)
    (hbound : IdsBounded db)
    (hfind : get_profile_by_id pid db = some p)
    (_hpending : p.status = some "pending")
    (huser : (sanitizeNewProfile draft).username = p.username)
    (hval : (noteValidation draft).1 = true)
    (hst : effectiveStatus (sanitizeNewProfile draft) = "pending") :
    (admin_review_cb adminIds superAdminId callerId pid "reject" db).1 =
      ReviewReply.crashNoCacheDelete ∧
    get_profile_by_username p.username
      (admin_review_cb adminIds superAdminId callerId pid "reject" db).2 = none ∧
    ∃ db₂ row,
      new_profile_confirm_cb adminIds superAdminId (some draft)
        (admin_review_cb adminIds superAdminId callerId pid "reject" db).2 =
        (ConfirmReply.saved db.nextProfileId (notifiedAdmins adminIds superAdminId), db₂) ∧
      row ∈ db₂.profiles ∧ row.id = db.nextProfileId ∧ row.id ≠ pid ∧
      row.username = p.username ∧ row.status = some "pending" := by
  have hmem : p ∈ db.profiles := List.mem_of_find?_eq_some hfind
  have hdel : (delete_profile p.username db).1 = true := by
    unfold delete_profile
    exact List.any_eq_true.mpr ⟨p, hmem, by simp⟩
  have heval := admin_review_reject_eval adminIds superAdminId callerId pid db p hacc hfind
  have hpid : p.id = pid := by
    have := List.find?_some hfind
    simpa using this
  have hfresh : db.nextProfileId ≠ pid := by
    have := hbound p hmem
    omega
  refine ⟨?_, ?_, ?_⟩
  · rw [heval, hdel, if_pos rfl]
  · rw [heval, hdel, if_pos rfl]
    exact delete_kills_username p.username db
  · rw [heval, hdel, if_pos rfl]
    have hnone : get_profile_by_username (sanitizeNewProfile draft).username
        (delete_profile p.username db).2 = none := by
      rw [huser]
      exact delete_kills_username p.username db
    obtain ⟨db₂, row, heq, hmem₂, hid, husr, hstat⟩ :=
      confirm_none_saves adminIds superAdminId draft
        (delete_profile p.username db).2 hval hst hnone
    refine ⟨db₂, row, heq, hmem₂, hid, ?_, ?_, hstat⟩
    · rw [hid]
      exact hfresh
    · rw [husr, huser]

/-- C4 witness: rejecting `dave`'s pending profile id 1 deletes the row
(the handler then aborts in the cache invalidation) and the immediate
resubmission is saved as id 2 with status pending. -/
theorem reject_frees_username_witness :
    (admin_review_cb [2] 9 2 1 "reject" dbC4).1 = ReviewReply.crashNoCacheDelete ∧
    get_profile_by_username "dave" (admin_review_cb [2] 9 2 1 "reject" dbC4).2 = none ∧
    (new_profile_confirm_cb [2] 9 (some draftC4)
      (admin_review_cb [2] 9 2 1 "reject" dbC4).2).1 =
      ConfirmReply.saved dbC4.nextProfileId (notifiedAdmins [2] 9) := by
  have h := reject_frees_username [2] 9 2 1 profileC4 draftC4 dbC4
    (Or.inr (by decide)) (by unfold IdsBounded; decide) (by decide) (by decide)
    (by decide) (by decide) (by decide)
  refine ⟨h.1, h.2.1, ?_⟩
  obtain ⟨db₂, row, heq, -⟩ := h.2.2
  rw [heq]

/-- C5: an edit attempt on a stored profile by a caller who is neither the
submitter (`added_by_id`) nor in the configured admin id set is answered
with the access-denied reply, stores nothing in the session, and leaves the
database unchanged; a subsequent confirm press with that (empty) session is
a no-op on the store as well. -/
theorem edit_access_control (adminIds : List Nat) (callerId : Nat)
    (username : String) (p : Profile) (db : DB)
    (hfind : get_profile_by_username username db = some p)
    (hnotowner : some callerId ≠ p.added_by_id)
    (hnotadmin : callerId ∉ adminIds) :
    edit_profile_cb adminIds callerId username {} db =
      (EditReply.accessDenied, {}, db) ∧
    edit_profile_confirm_cb {} db = (EditReply.noData, {}, db) := by
  constructor
  · unfold edit_profile_cb
    rw [hfind]
    show (if some callerId ≠ p.added_by_id ∧ callerId ∉ adminIds then _ else _) = _
    rw [if_pos ⟨hnotowner, hnotadmin⟩]
  · rfl

/-- C5 witness: user 99 (neither submitter 42 nor admin) is refused on
`erin`'s profile and the store is untouched. -/
theorem edit_access_control_witness :
    edit_profile_cb [2] 99 "erin" {} dbC5 = (EditReply.accessDenied, {}, dbC5) ∧
    edit_profile_confirm_cb {} dbC5 = (EditReply.noData, {}, dbC5) :=
  edit_access_control [2] 99 "erin" profileC5 dbC5 (by decide) (by decide) (by decide)

/-- C9 (code bug): the message `репорт чат: спамит ссылками` is dispatched
by `src/main.py` to the report conversation entry (`report_start`), which
persists nothing — it only prompts for a category — while
`try_auto_report_submit`, the function that would parse it in one shot into
a report with category `chat` and reason `спамит ссылками`, is never
registered as a handler. -/
theorem report_one_shot_unreachable :
    firstTextHandler "репорт чат: спамит ссылками" = TextHandler.reportConvEntry ∧
    (∀ (u : Option String) (db : DB), (report_start u db).2 = db) ∧
    try_auto_report_submit true "репорт чат: спамит ссылками" =
      AutoReportResult.submitted "chat" "спамит ссылками" := by
  refine ⟨by decide, ?_, by decide⟩
  intro u db
  unfold report_start
  rcases u with - | v
  · rfl
  · cases h : get_profile_by_username v db <;> simp [h]
